import Mathlib

/-!
Shallow embedding of the nimpretty Sublime Text plugin (src/nimpretty.py).

The plugin shells out to the external nimpretty binary: Command.run writes the
buffer text to a temporary file, runs the binary on that file, re-reads the
file as the formatted output and removes it; Error.parse_stderr turns stderr
lines of the shape  anything(ROW, COL) TEXT  into positioned diagnostics;
Formatter.format and run_formatter orchestrate the two and maintain the
per-document error map, status line, output panel and highlight regions.

Modelling conventions:
- Strings are Lean String values; the bytes-vs-str decode branch at the top of
  Error.parse_stderr is the identity here.
- Python character classes are modelled on their ASCII fragment: the digit
  class is Char.isDigit, the whitespace class is isPySpace below; splitlines
  uses the ASCII line boundaries plus NEL, LINE SEPARATOR and PARAGRAPH
  SEPARATOR, exactly the boundaries Python str.splitlines recognises.
- The filesystem is a map from path to file content; one subprocess invocation
  is an oracle (ProcBehavior) recording whether Popen managed to spawn the
  process and, if it did, what the formatter left in the temporary file, what
  it wrote to stderr, and its exit code.
- Host view geometry (view.text_point and view.line, used only to derive the
  highlight Region stored in a Python Error object) is host-API state that no
  claim mentions; the Region field is therefore omitted from the Error
  structure.  The viewport save/restore and the hover popup are likewise
  outside the model.
- os.path.basename is modelled for POSIX paths (the part after the last
  slash).
-/

namespace Nimpretty

/-- ASCII fragment of the Python regex whitespace class (space, tab, LF, CR,
vertical tab, form feed). -/
def isPySpace (c : Char) : Bool :=
  c = ' ' ∨ c = '\t' ∨ c = '\n' ∨ c = '\r' ∨ c = '\x0b' ∨ c = '\x0c'

/-- Line boundaries recognised by Python str.splitlines: LF, CR, VT, FF, FS,
GS, RS, NEL, LINE SEPARATOR, PARAGRAPH SEPARATOR (CRLF is handled as one
boundary by splitlinesAux). -/
def isPyLineBreak (c : Char) : Bool :=
  c = '\n' ∨ c = '\r' ∨ c = '\x0b' ∨ c = '\x0c' ∨ c = '\x1c' ∨ c = '\x1d' ∨
  c = '\x1e' ∨ c = '\x85' ∨ c = '\u2028' ∨ c = '\u2029'

/-- Python str.splitlines on a character list, with an accumulator for the
current line.  A trailing line boundary does not produce a final empty line,
matching Python. -/
def splitlinesAux : List Char → List Char → List (List Char)
  | '\r' :: '\n' :: r, acc => acc.reverse :: splitlinesAux r []
  | c :: r, acc =>
    if isPyLineBreak c then acc.reverse :: splitlinesAux r []
    else splitlinesAux r (c :: acc)
  | [], acc => if acc.isEmpty then [] else [acc.reverse]

/-- Python str.splitlines. -/
def splitlines (s : String) : List String :=
  (splitlinesAux s.data []).map String.mk

/-- Value of a digit string, as computed by Python int on the digits captured
by the regex groups. -/
def digitsVal (ds : List Char) : Nat :=
  ds.foldl (fun n c => 10 * n + (c.toNat - 48)) 0

/-- Matcher for the part of the plugin regex after a literal left parenthesis:
the remainder of  (\d+), (\d+)\)\s+(.*)\Z  with Python greedy semantics.  The
first digit group is the maximal digit run (backtracking into it cannot help,
since a shorter run leaves a digit where the literal comma is required), then
the literal comma-space, then the second maximal digit run, the literal right
parenthesis, a maximal nonempty whitespace run, and the trailing text group,
which the dot class forbids from containing a line feed. -/
def matchAfterParen (s : List Char) : Option (Nat × Nat × String) :=
  let d1 := s.takeWhile Char.isDigit
  let r1 := s.dropWhile Char.isDigit
  if d1.isEmpty then none else
  match r1 with
  | ',' :: ' ' :: r2 =>
    let d2 := r2.takeWhile Char.isDigit
    let r3 := r2.dropWhile Char.isDigit
    if d2.isEmpty then none else
    match r3 with
    | ')' :: r4 =>
      let w := r4.takeWhile isPySpace
      let t := r4.dropWhile isPySpace
      if w.isEmpty then none
      else if t.any (fun c => c = '\n') then none
      else some (digitsVal d1, digitsVal d2, String.mk t)
    | _ => none
  | _ => none

/-- Matcher for the full plugin regex  \A.*\((\d+), (\d+)\)\s+(.*)\Z  with
Python greedy semantics: the leading greedy dot-star selects the rightmost
left parenthesis whose suffix matches the rest of the pattern, and it cannot
cross a line feed, so a line feed discards every candidate to its right. -/
def lineMatchCore : List Char → Option (Nat × Nat × String)
  | [] => none
  | c :: r =>
    match lineMatchCore r with
    | some m => if c = '\n' then none else some m
    | none => if c = '(' then matchAfterParen r else none

/-- Error.line_re.match on one line: row and column groups as numbers plus the
message text, or none when the line does not match. -/
def lineMatch (line : String) : Option (Nat × Nat × String) :=
  lineMatchCore line.data

/-- Python str.replace worker: replaces every non-overlapping occurrence of
the pattern (first character p0, rest ps), scanning left to right.  The fuel
argument, instantiated with the length of the scanned list, bounds the number
of recursion steps (each step consumes at least one character); it makes the
recursion structural so that the definition evaluates by kernel reduction.
The out-of-fuel fallback is never reached at that instantiation. -/
def strReplaceAux (p0 : Char) (ps repl : List Char) :
    Nat → List Char → List Char
  | 0, s => s
  | _ + 1, [] => []
  | fuel + 1, c :: r =>
    if (p0 :: ps).isPrefixOf (c :: r) then
      repl ++ strReplaceAux p0 ps repl fuel (r.drop ps.length)
    else
      c :: strReplaceAux p0 ps repl fuel r

/-- Python str.replace for a nonempty pattern (the plugin only ever replaces
the literal placeholder, which is nonempty; for an empty pattern this model
returns the string unchanged). -/
def pyReplace (s pat repl : String) : String :=
  match pat.data with
  | [] => s
  | p0 :: ps => String.mk (strReplaceAux p0 ps repl.data s.data.length s.data)

/-- os.path.basename for POSIX paths: the part after the last slash. -/
def basename (s : String) : String :=
  String.mk ((s.data.reverse.takeWhile (fun c => c ≠ '/')).reverse)

/-- One parsed diagnostic, mirroring the Python Error object (text, zero-based
row and column, display filename).  The highlight Region derived from host
view geometry is not modelled. -/
structure Error where
  text : String
  row : Int
  col : Int
  filename : String
deriving DecidableEq

/-- Display filename used for diagnostics: the base name of the document file,
or the anonymous-buffer placeholder when the document has no file name. -/
def Error.displayName : Option String → String
  | some f => basename f
  | none => "<anonymous buffer>"

/-- The stderr text actually matched against the pattern: when the document
has a file name, every occurrence of the standard-input placeholder is first
replaced by the document base filename; otherwise stderr is left as is. -/
def Error.substituted (stderr : String) (fileName : Option String) : String :=
  match fileName with
  | some f => pyReplace stderr "<standard input>" (basename f)
  | none => stderr

/-- Loop body of Error.parse_stderr: a matching line appends one diagnostic
(with row and column each decremented by one), a non-matching line is
dropped. -/
def Error.parseStep (fn : String) (errors : List Error) (raw : String) :
    List Error :=
  match lineMatch raw with
  | none => errors
  | some (r, c, t) => errors ++ [⟨t, (r : Int) - 1, (c : Int) - 1, fn⟩]

/-- The line loop of Error.parse_stderr over already-substituted stderr
text. -/
def Error.parseLines (s : String) (fn : String) : List Error :=
  (splitlines s).foldl (Error.parseStep fn) []

/-- Error.parse_stderr: decode (identity here), substitute the placeholder
when the document has a file name, split into lines and run the match loop.
The view argument is reduced to the file name of the document, the only part
of the view this function reads besides geometry. -/
def Error.parse_stderr (stderr : String) (fileName : Option String) :
    List Error :=
  Error.parseLines (Error.substituted stderr fileName)
    (Error.displayName fileName)

/-- Spec-side shorthand: the diagnostic produced from one line, if that line
matches.  Proven below to generate parse_stderr by filterMap. -/
def Error.diagOfLine (fn : String) (raw : String) : Option Error :=
  (lineMatch raw).map
    (fun m => ⟨m.2.2, (m.1 : Int) - 1, (m.2.1 : Int) - 1, fn⟩)

/-- Total version of diagOfLine for stating the order-preservation claim on
the sublist of matching lines (the default is never reached there). -/
def Error.forceDiag (fn : String) (raw : String) : Error :=
  (Error.diagOfLine fn raw).getD ⟨"", 0, 0, fn⟩

/-- The filesystem, as a map from path to file content. -/
abbrev FS := String → Option String

/-- Oracle for one subprocess invocation: either subprocess.Popen raised (for
example, the formatter binary is not installed), or the process ran and is
described by the content it left in the temporary file (nimpretty rewrites
its input file in place), the bytes it wrote to stderr, and its exit code. -/
inductive ProcBehavior where
  | spawnFail
  | ran (fileOut : String) (stderr : String) (returncode : Int)
deriving DecidableEq

/-- The one exception Command.run can raise in this model: Popen failed to
spawn the subprocess. -/
inductive RunExn where
  | spawnError
deriving DecidableEq

/-- Command.run: write stdin to the temporary file, spawn the formatter on
it, wait, re-read the temporary file as stdout, remove the temporary file,
and return (stdout, stderr, returncode).  When Popen raises, the exception
propagates at that point and the removal never runs, so the state keeps the
already-written temporary file.  (tempfile.mkstemp in the Command constructor
creates the file; the write here overwrites it, so the net filesystem effect
of construction plus run is the write modelled here.) -/
def Command.run (tmpname : String) (stdin : String) (proc : ProcBehavior)
    (fs : FS) : Except RunExn (String × String × Int) × FS :=
  let fs1 : FS := fun p => if p = tmpname then some stdin else fs p
  match proc with
  | ProcBehavior.spawnFail => (Except.error RunExn.spawnError, fs1)
  | ProcBehavior.ran fileOut stderr rc =>
    let fs2 : FS := fun p => if p = tmpname then some fileOut else fs1 p
    let stdout := (fs2 tmpname).getD ""
    let fs3 : FS := fun p => if p = tmpname then none else fs2 p
    (Except.ok (stdout, stderr, rc), fs3)

/-- The host view state the plugin reads and writes: buffer text, document
file name, the nimpretty status-bar entry, the nimpretty highlight regions
(modelled as the diagnostics they are drawn from), and the nimpretty output
panel content and visibility. -/
structure ViewState where
  buffer : String
  fileName : Option String
  status : String
  regions : List Error
  panelContent : String
  panelVisible : Bool
deriving DecidableEq

/-- Exceptions escaping Formatter.format: FormatterError carrying the parsed
diagnostics, or any other exception (here: the spawn failure propagating out
of Command.run). -/
inductive Exn where
  | formatterError (errors : List Error)
  | other
deriving DecidableEq

/-- Formatter.format: clear the previous status and regions, read the region
text (run_formatter always passes the whole buffer), run the command, and on
non-empty stderr or non-zero exit parse stderr into diagnostics, show them
(status message, output panel content, highlight regions) and raise
FormatterError; otherwise hide the error panel and return the formatted
text.  View and filesystem mutations performed before an exception are kept,
as in the Python code. -/
def Formatter.format (cmdName : String) (tmpname : String) (view : ViewState)
    (proc : ProcBehavior) (fs : FS) : Except Exn String × ViewState × FS :=
  let view1 := { view with status := "", regions := [] }
  let code := view1.buffer
  match Command.run tmpname code proc fs with
  | (Except.error _, fs1) => (Except.error Exn.other, view1, fs1)
  | (Except.ok (stdout, stderr, rc), fs1) =>
    if stderr ≠ "" ∨ rc ≠ 0 then
      let errs := Error.parse_stderr stderr view1.fileName
      let view2 := { view1 with
        status := cmdName ++ " failed with return code " ++ toString rc,
        panelContent := String.intercalate "\n" (errs.map Error.text),
        regions := errs }
      (Except.error (Exn.formatterError errs), view2, fs1)
    else
      (Except.ok stdout, { view1 with panelVisible := false }, fs1)

/-- Result of one run_formatter invocation: the final view state, the final
per-document error map, the final filesystem, whether view.replace was
called, and whether the blocking error dialog (sublime.error_message on the
failure trace) was shown. -/
structure RunResult where
  view : ViewState
  viewErrors : Nat → Option (List Error)
  fs : FS
  didReplace : Bool
  dialogShown : Bool

/-- run_formatter: drop the stored diagnostics for this document, run the
formatter on the whole buffer, and replace the buffer only when the result
differs from the current content.  A FormatterError stores the new
diagnostics for the document; any other exception shows the blocking error
dialog.  (The viewport save/restore around the replacement is host UI state
outside the model.) -/
def run_formatter (viewId : Nat) (view : ViewState)
    (viewErrors : Nat → Option (List Error)) (cmdName : String)
    (tmpname : String) (proc : ProcBehavior) (fs : FS) : RunResult :=
  let ve1 : Nat → Option (List Error) :=
    fun w => if w = viewId then none else viewErrors w
  match Formatter.format cmdName tmpname view proc fs with
  | (Except.ok replacement, view1, fs1) =>
    if view1.buffer ≠ replacement then
      ⟨{ view1 with buffer := replacement }, ve1, fs1, true, false⟩
    else
      ⟨view1, ve1, fs1, false, false⟩
  | (Except.error (Exn.formatterError errs), view1, fs1) =>
    ⟨view1, fun w => if w = viewId then some errs else ve1 w, fs1, false,
      false⟩
  | (Except.error Exn.other, view1, fs1) =>
    ⟨view1, ve1, fs1, false, true⟩

/-!  Helper lemmas about the parse loop. -/

theorem Error.foldl_parseStep (fn : String) (ls : List String)
    (acc : List Error) :
    ls.foldl (Error.parseStep fn) acc = acc ++ ls.filterMap (Error.diagOfLine fn) := by
  induction ls generalizing acc with
  | nil => simp
  | cons l ls ih =>
    simp only [List.foldl_cons, List.filterMap_cons]
    cases h : lineMatch l with
    | none =>
      have hstep : Error.parseStep fn acc l = acc := by
        simp [Error.parseStep, h]
      have hdiag : Error.diagOfLine fn l = none := by
        simp [Error.diagOfLine, h]
      rw [hstep, hdiag, ih]
    | some m =>
      obtain ⟨r, c, t⟩ := m
      have hstep : Error.parseStep fn acc l
          = acc ++ [⟨t, (r : Int) - 1, (c : Int) - 1, fn⟩] := by
        simp [Error.parseStep, h]
      have hdiag : Error.diagOfLine fn l
          = some ⟨t, (r : Int) - 1, (c : Int) - 1, fn⟩ := by
        simp [Error.diagOfLine, h]
      rw [hstep, hdiag, ih]
      simp

theorem Error.parseLines_eq_filterMap (s fn : String) :
    Error.parseLines s fn = (splitlines s).filterMap (Error.diagOfLine fn) := by
  simpa using Error.foldl_parseStep fn (splitlines s) []

theorem Error.filterMap_diag (fn : String) (ls : List String) :
    ls.filterMap (Error.diagOfLine fn) =
      (ls.filter (fun l => (lineMatch l).isSome)).map (Error.forceDiag fn) := by
  induction ls with
  | nil => simp
  | cons l ls ih =>
    cases h : lineMatch l with
    | none =>
      simp [List.filterMap_cons, List.filter_cons, Error.diagOfLine, h, ih]
    | some m =>
      simp [List.filterMap_cons, List.filter_cons, Error.diagOfLine,
        Error.forceDiag, h, ih]

theorem Error.mem_parseLines_filename (s fn : String) (e : Error)
    (he : e ∈ Error.parseLines s fn) : e.filename = fn := by
  rw [Error.parseLines_eq_filterMap] at he
  obtain ⟨l, _, hd⟩ := List.mem_filterMap.mp he
  unfold Error.diagOfLine at hd
  cases hm : lineMatch l with
  | none => rw [hm] at hd; simp at hd
  | some m =>
    rw [hm] at hd
    have hd2 : some (⟨m.2.2, (m.1 : Int) - 1, (m.2.1 : Int) - 1, fn⟩ : Error)
        = some e := hd
    cases hd2
    rfl

/-!  Claim theorems. -/

/-- C1, counterexample: the claim that the temporary file is gone after every
Command.run invocation, returning or raising, fails on the code.  When
subprocess.Popen raises (for example the formatter binary is not installed),
Command.run propagates the exception before reaching os.remove, and the
temporary file, already written with the buffer text, stays on disk. -/
theorem command_run_spawn_failure_leaves_tmpfile :
    (Command.run "/tmp/tmpabc123.nim" "echo 1" ProcBehavior.spawnFail
      (fun _ => none)).2 "/tmp/tmpabc123.nim" = some "echo 1" := by
  simp [Command.run]

/-- C1, amended: for every Command.run invocation in which the subprocess was
actually spawned — whatever its exit code, stderr or rewritten file content —
after the invocation returns the temporary file no longer exists on disk. -/
theorem command_run_removes_tmpfile_when_spawned (tmpname stdin fileOut
    stderr : String) (rc : Int) (fs : FS) :
    (Command.run tmpname stdin (ProcBehavior.ran fileOut stderr rc) fs).2
      tmpname = none := by
  simp [Command.run]

/-- C2: when the subprocess ran, Formatter.format raises FormatterError if
and only if stderr is non-empty or the exit code is non-zero; in that case
run_formatter leaves the buffer unmodified and performs no replacement, and
otherwise format returns the formatted text (the content the formatter left
in the temporary file). -/
theorem format_failure_iff_stderr_or_exit (cmdName tmpname : String)
    (view : ViewState) (viewId : Nat)
    (viewErrors : Nat → Option (List Error)) (fileOut stderr : String)
    (rc : Int) (fs : FS) :
    ((∃ errs, (Formatter.format cmdName tmpname view
        (ProcBehavior.ran fileOut stderr rc) fs).1
        = Except.error (Exn.formatterError errs))
      ↔ (stderr ≠ "" ∨ rc ≠ 0)) ∧
    ((stderr ≠ "" ∨ rc ≠ 0) →
      (run_formatter viewId view viewErrors cmdName tmpname
        (ProcBehavior.ran fileOut stderr rc) fs).view.buffer = view.buffer ∧
      (run_formatter viewId view viewErrors cmdName tmpname
        (ProcBehavior.ran fileOut stderr rc) fs).didReplace = false) ∧
    (stderr = "" ∧ rc = 0 →
      (Formatter.format cmdName tmpname view
        (ProcBehavior.ran fileOut stderr rc) fs).1 = Except.ok fileOut) := by
  by_cases h : stderr ≠ "" ∨ rc ≠ 0
  · refine ⟨⟨fun _ => h, fun _ => ?_⟩, fun _ => ?_, fun hc => ?_⟩
    · exact ⟨Error.parse_stderr stderr view.fileName,
        by simp [Formatter.format, Command.run, h]⟩
    · constructor <;>
        simp [run_formatter, Formatter.format, Command.run, h]
    · cases h with
      | inl hx => exact (hx hc.1).elim
      | inr hx => exact (hx hc.2).elim
  · refine ⟨⟨fun hex => ?_, fun hx => absurd hx h⟩, fun hx => absurd hx h,
      fun _ => ?_⟩
    · obtain ⟨errs, he⟩ := hex
      simp [Formatter.format, Command.run, h] at he
    · simp [Formatter.format, Command.run, h]

/-- C2, witness: a concrete failed run (stderr non-empty, exit code 1)
performs no buffer replacement. -/
theorem format_failure_iff_stderr_or_exit_witness :
    (run_formatter 0 ⟨"var x=1", some "foo.nim", "", [], "", false⟩
      (fun _ => none) "nimpretty" "/tmp/t.nim"
      (ProcBehavior.ran "var x=1" "oops" 1) (fun _ => none)).didReplace
      = false :=
  ((format_failure_iff_stderr_or_exit "nimpretty" "/tmp/t.nim"
      ⟨"var x=1", some "foo.nim", "", [], "", false⟩ 0 (fun _ => none)
      "var x=1" "oops" 1 (fun _ => none)).2.1 (Or.inl (by decide))).2

/-- C3: the stderr line about file.nim at one-based row 3 and column 5
produces exactly one diagnostic, with zero-based row 2 and column 4, message
text as the remainder of the line, and the document base filename. -/
theorem parse_stderr_round_trip_example :
    Error.parse_stderr "file.nim(3, 5) expected token" (some "file.nim") =
      [⟨"expected token", 2, 4, "file.nim"⟩] := by
  decide

/-- C4, counterexample: the claim that a stderr text with no line matching
the pattern always yields no diagnostics fails on the code, because the
placeholder substitution runs before matching.  Here no line of the stderr
text matches the pattern, yet with a document whose base filename itself
contains pattern-shaped text the substitution manufactures a matching line
and parse_stderr produces a diagnostic. -/
theorem parse_stderr_substitution_creates_match :
    ((splitlines "<standard input> boom").all
        (fun l => (lineMatch l).isNone) = true) ∧
    Error.parse_stderr "<standard input> boom"
        (some "weird(1, 2) name.nim") =
      [⟨"name.nim boom", 0, 1, "weird(1, 2) name.nim"⟩] := by
  exact ⟨by decide, by decide⟩

/-- C4, amended: for every stderr text such that, after the placeholder
substitution parse_stderr performs, none of the resulting lines matches the
pattern, the produced diagnostic sequence is empty — non-matching lines are
dropped without producing any diagnostic. -/
theorem parse_stderr_empty_of_no_match_after_substitution (stderr : String)
    (fileName : Option String)
    (h : ∀ l ∈ splitlines (Error.substituted stderr fileName),
      lineMatch l = none) :
    Error.parse_stderr stderr fileName = [] := by
  unfold Error.parse_stderr
  rw [Error.parseLines_eq_filterMap]
  rw [List.filterMap_eq_nil_iff]
  intro l hl
  simp [Error.diagOfLine, h l hl]

/-- C4, amended, witness: a concrete stderr text with no matching line (and
no placeholder) parses to the empty diagnostic list. -/
theorem parse_stderr_empty_of_no_match_witness :
    Error.parse_stderr "no diagnostics here" none = [] :=
  parse_stderr_empty_of_no_match_after_substitution "no diagnostics here"
    none (by decide)

/-- C5: when the document has a file name, parse_stderr replaces every
occurrence of the standard-input placeholder with the document base filename
before matching; in particular the spec scenario produces one diagnostic at
zero-based row 0 and column 4 under the document filename, and a second
occurrence of the placeholder inside a message text is substituted too. -/
theorem parse_stderr_substitutes_placeholder :
    (∀ stderr f, Error.parse_stderr stderr (some f) =
      Error.parseLines (pyReplace stderr "<standard input>" (basename f))
        (basename f)) ∧
    Error.parse_stderr "<standard input>(1, 5) Error: invalid indentation"
        (some "foo.nim") =
      [⟨"Error: invalid indentation", 0, 4, "foo.nim"⟩] ∧
    Error.parse_stderr "<standard input>(1, 2) see <standard input>"
        (some "foo.nim") =
      [⟨"see foo.nim", 0, 1, "foo.nim"⟩] := by
  exact ⟨fun stderr f => rfl, by decide, by decide⟩

/-- C6: when the formatter returns the buffer text unchanged with exit code 0
and empty stderr, run_formatter performs no buffer replacement, the buffer is
left as it was, no FormatterError diagnostics are stored and no error dialog
is shown. -/
theorem run_formatter_idempotent_input_no_replace (viewId : Nat)
    (view : ViewState) (viewErrors : Nat → Option (List Error))
    (cmdName tmpname : String) (fs : FS) :
    (run_formatter viewId view viewErrors cmdName tmpname
      (ProcBehavior.ran view.buffer "" 0) fs).didReplace = false ∧
    (run_formatter viewId view viewErrors cmdName tmpname
      (ProcBehavior.ran view.buffer "" 0) fs).view.buffer = view.buffer ∧
    (run_formatter viewId view viewErrors cmdName tmpname
      (ProcBehavior.ran view.buffer "" 0) fs).viewErrors viewId = none ∧
    (run_formatter viewId view viewErrors cmdName tmpname
      (ProcBehavior.ran view.buffer "" 0) fs).dialogShown = false := by
  simp [run_formatter, Formatter.format, Command.run]

/-- C7: parse_stderr is exactly the in-order image of the matching lines of
the substituted stderr text: the i-th diagnostic is built from the i-th
matching line, with no deduplication and no sorting. -/
theorem parse_stderr_preserves_line_order (stderr : String)
    (fileName : Option String) :
    Error.parse_stderr stderr fileName =
      ((splitlines (Error.substituted stderr fileName)).filter
        (fun l => (lineMatch l).isSome)).map
        (Error.forceDiag (Error.displayName fileName)) := by
  unfold Error.parse_stderr
  rw [Error.parseLines_eq_filterMap, Error.filterMap_diag]

/-- C8: run_formatter first discards the stored diagnostics of this document;
afterwards the per-document error map holds the freshly parsed diagnostics
exactly when the run failed with FormatterError (subprocess ran with
non-empty stderr or non-zero exit), and holds nothing for this document
otherwise; entries of other documents are untouched. -/
theorem run_formatter_error_map_refresh (viewId : Nat) (view : ViewState)
    (viewErrors : Nat → Option (List Error)) (cmdName tmpname : String)
    (proc : ProcBehavior) (fs : FS) :
    (∀ w, w ≠ viewId →
      (run_formatter viewId view viewErrors cmdName tmpname proc fs).viewErrors
        w = viewErrors w) ∧
    (run_formatter viewId view viewErrors cmdName tmpname proc
        fs).viewErrors viewId =
      (match proc with
       | ProcBehavior.spawnFail => none
       | ProcBehavior.ran _ stderr rc =>
         if stderr ≠ "" ∨ rc ≠ 0 then
           some (Error.parse_stderr stderr view.fileName)
         else none) := by
  cases proc with
  | spawnFail =>
    constructor
    · intro w hw
      simp [run_formatter, Formatter.format, Command.run, hw]
    · simp [run_formatter, Formatter.format, Command.run]
  | ran fileOut stderr rc =>
    by_cases h : stderr ≠ "" ∨ rc ≠ 0
    · constructor
      · intro w hw
        simp [run_formatter, Formatter.format, Command.run, h, hw]
      · simp [run_formatter, Formatter.format, Command.run, h]
    · constructor
      · intro w hw
        simp [run_formatter, Formatter.format, Command.run, h, hw,
          apply_ite RunResult.viewErrors]
      · simp [run_formatter, Formatter.format, Command.run, h,
          apply_ite RunResult.viewErrors]

/-- C8, witness: after a concrete failed run for document 1, the entry of
document 2 is untouched. -/
theorem run_formatter_error_map_refresh_witness :
    (run_formatter 1 ⟨"var x=1", some "foo.nim", "", [], "", false⟩
      (fun _ => none) "nimpretty" "/tmp/t.nim"
      (ProcBehavior.ran "var x=1" "boom" 1) (fun _ => none)).viewErrors 2
      = none :=
  (run_formatter_error_map_refresh 1
    ⟨"var x=1", some "foo.nim", "", [], "", false⟩ (fun _ => none)
    "nimpretty" "/tmp/t.nim" (ProcBehavior.ran "var x=1" "boom" 1)
    (fun _ => none)).1 2 (by decide)

/-- C9: when the format run raises something other than FormatterError (here,
Popen failing to spawn the subprocess), run_formatter shows the blocking
error dialog, stores no diagnostics, and does not enter the failed-format
display path: the status stays cleared, no highlight regions are drawn, the
panel content is untouched and the buffer is unmodified. -/
theorem run_formatter_unexpected_exception_dialog (viewId : Nat)
    (view : ViewState) (viewErrors : Nat → Option (List Error))
    (cmdName tmpname : String) (fs : FS) :
    (run_formatter viewId view viewErrors cmdName tmpname
      ProcBehavior.spawnFail fs).dialogShown = true ∧
    (run_formatter viewId view viewErrors cmdName tmpname
      ProcBehavior.spawnFail fs).viewErrors viewId = none ∧
    (run_formatter viewId view viewErrors cmdName tmpname
      ProcBehavior.spawnFail fs).view.status = "" ∧
    (run_formatter viewId view viewErrors cmdName tmpname
      ProcBehavior.spawnFail fs).view.regions = [] ∧
    (run_formatter viewId view viewErrors cmdName tmpname
      ProcBehavior.spawnFail fs).view.panelContent = view.panelContent ∧
    (run_formatter viewId view viewErrors cmdName tmpname
      ProcBehavior.spawnFail fs).didReplace = false ∧
    (run_formatter viewId view viewErrors cmdName tmpname
      ProcBehavior.spawnFail fs).view.buffer = view.buffer := by
  simp [run_formatter, Formatter.format, Command.run]

/-- C10: when the document has no file name, parse_stderr performs no
placeholder substitution, every diagnostic it produces carries the literal
anonymous-buffer filename, and a line naming the standard-input placeholder
still matches the pattern and yields a diagnostic under that filename. -/
theorem parse_stderr_anonymous_buffer :
    (∀ stderr, Error.parse_stderr stderr none =
      Error.parseLines stderr "<anonymous buffer>") ∧
    (∀ stderr e, e ∈ Error.parse_stderr stderr none →
      e.filename = "<anonymous buffer>") ∧
    Error.parse_stderr "<standard input>(2, 3) msg" none =
      [⟨"msg", 1, 2, "<anonymous buffer>"⟩] := by
  refine ⟨fun _ => rfl, ?_, by decide⟩
  intro stderr e he
  exact Error.mem_parseLines_filename stderr "<anonymous buffer>" e he

/-- C10, witness: the diagnostic produced from the concrete placeholder line
carries the anonymous-buffer filename. -/
theorem parse_stderr_anonymous_buffer_witness :
    (⟨"msg", 1, 2, "<anonymous buffer>"⟩ : Error).filename
      = "<anonymous buffer>" :=
  parse_stderr_anonymous_buffer.2.1 "<standard input>(2, 3) msg"
    ⟨"msg", 1, 2, "<anonymous buffer>"⟩ (by decide)

end Nimpretty
